import Mathlib

/-
Verification of the iron-term process-orchestration core.

The definitions below are a shallow embedding of the relevant parts of
src/electron/main.ts (capture pipeline, tmux watchdog, ASR session),
src/unnamed/part_000 (renderer transcript merging, handleAsrResult) and
src/scripts/window_list.swift (window-to-display assignment).
External effects (spawned commands, the websocket, the persisted store)
are modelled as explicit inputs/outputs: command outcomes come from an
environment record, pushed IPC events are collected in output lists, and
the persisted card list is passed and returned explicitly.
-/

/- ---------------------------------------------------------------------
Capture pipeline (src/electron/main.ts, handlers cards-capture,
window-capture and window-capture-temp).
--------------------------------------------------------------------- -/

/-- Screen rectangle with absolute (global, top-left-origin) integer
coordinates, as passed in capture payloads. -/
structure Rect where
  x : Int
  y : Int
  w : Int
  h : Int
deriving DecidableEq, Repr

/-- Display info attached to a rectangle capture payload: 1-based display
index plus the display bounds in global top-left coordinates. -/
structure DisplayInfo where
  index : Nat
  x : Int
  y : Int
  w : Int
  h : Int
deriving DecidableEq, Repr

/-- Directory a capture output file is written under: the persistent cards
directory or the ephemeral app_cards (app-proxy) directory. -/
inductive CaptureDir
  | cards
  | appCards
deriving DecidableEq, Repr

/-- File path of a capture output, as directory tag plus file name. -/
structure FsPath where
  dir : CaptureDir
  name : String
deriving DecidableEq, Repr

/-- Model of pathToFileURL applied to a capture output path. -/
def pathToFileURL (p : FsPath) : String :=
  (match p.dir with
    | CaptureDir.cards => "file:///userData/cards/"
    | CaptureDir.appCards => "file:///userData/app_cards/") ++ p.name

/-- Card size class. -/
inductive CardSize
  | small
  | large
deriving DecidableEq, Repr

/-- CardMeta record persisted in cards.json (type CardMeta in main.ts). -/
structure CardMeta where
  id : String
  filePath : FsPath
  fileUrl : String
  timestamp : String
  label : String
  x : Int
  y : Int
  width : Int
  height : Int
  locked : Bool
  size : CardSize
deriving DecidableEq, Repr

/-- Failure modes of the capture pipeline: an external command failed
(non-zero exit / spawn failure), or a rectangle was required but absent
(the reject(new Error(\x27missing rect\x27)) path in captureWithRect). -/
inductive CaptureError
  | execError (message : String)
  | missingRect
deriving DecidableEq, Repr

/-- Environment for one capture request: whether the screencapture -l
(window handle) invocation succeeds, the outcome of a screencapture -R
invocation as a function of the rectangle and optional -D display index
actually passed on the command line, and the freshly generated uuid and
timestamp for this request. -/
structure CaptureEnv where
  idOk : Bool
  rectRuns : Rect → Option Nat → Bool
  freshId : String
  timestamp : String

/-- Coordinates and display index passed to screencapture -R by
captureWithRect in main.ts: with display info present the rectangle is
transformed to display-local bottom-left-origin coordinates
(localX = x - display.x, localY = y - display.y,
localTopY = display.h - localY - h) and -D display.index is added;
without display info the global coordinates are used unchanged. -/
def rectCaptureCoords (rect : Rect) (display : Option DisplayInfo) : Rect × Option Nat :=
  match display with
  | some d =>
      let localX := rect.x - d.x
      let localY := rect.y - d.y
      let localTopY := d.h - localY - rect.h
      (⟨localX, localTopY, rect.w, rect.h⟩, some d.index)
  | none => (rect, none)

/-- Handle-based capture attempt (screencapture -x -l windowId). -/
def captureWithId (env : CaptureEnv) : Except CaptureError Unit :=
  if env.idOk then Except.ok ()
  else Except.error (CaptureError.execError "screencapture -l failed")

/-- Rectangle-based capture attempt (captureWithRect in main.ts): rejects
with the missing-rect error when no rectangle is supplied, otherwise runs
screencapture -R at the transformed coordinates. -/
def captureWithRect (rect : Option Rect) (display : Option DisplayInfo)
    (env : CaptureEnv) : Except CaptureError Unit :=
  match rect with
  | none => Except.error CaptureError.missingRect
  | some r =>
      let coords := rectCaptureCoords r display
      if env.rectRuns coords.1 coords.2 then Except.ok ()
      else Except.error (CaptureError.execError "screencapture -R failed")

/-- Output file name derived from timestamp and fresh id. -/
def cardFileName (env : CaptureEnv) : String :=
  env.timestamp ++ "-" ++ env.freshId ++ ".png"

/-- Card constructed on a successful capture, with the position defaults
used by the handler (80,120 for cards-capture, 120,140 for
window-capture). -/
def mkCard (env : CaptureEnv) (label : String) (w h : Int) (posX posY : Int)
    (dir : CaptureDir) : CardMeta :=
  let p : FsPath := ⟨dir, cardFileName env⟩
  { id := env.freshId, filePath := p, fileUrl := pathToFileURL p,
    timestamp := env.timestamp, label := label, x := posX, y := posY,
    width := w, height := h, locked := false, size := CardSize.small }

/-- Successful-capture list mutation: prepend the new card and truncate to
the cap of 20 ([card, ...cards].slice(0, 20)). -/
def persistNewCard (card : CardMeta) (stored : List CardMeta) : List CardMeta :=
  (card :: stored).take 20

/-- Result of a card-producing capture handler: the value returned to the
renderer, the persisted card list after the handler, and whether the
handler rewrote the persisted list (called saveCards). -/
structure HandlerOutcome where
  result : Except CaptureError (List CardMeta)
  stored : List CardMeta
  wroteStore : Bool

/-- Handler for the cards-capture IPC channel: rectangle capture at the
global coordinates (no display transform, no -D flag), then on success
prepend-truncate-persist and return the new list. -/
def cardsCapture (rect : Rect) (label : String) (w h : Int) (env : CaptureEnv)
    (stored : List CardMeta) : HandlerOutcome :=
  if env.rectRuns rect none then
    let card := mkCard env label w h 80 120 CaptureDir.cards
    let next := persistNewCard card stored
    ⟨Except.ok next, next, true⟩
  else
    ⟨Except.error (CaptureError.execError "screencapture -R failed"), stored, false⟩

/-- Payload of the window-capture and window-capture-temp IPC channels. -/
structure WindowCapturePayload where
  windowId : String
  label : String
  width : Int
  height : Int
  rect : Option Rect
  display : Option DisplayInfo

/-- Shared fallback chain of window-capture and window-capture-temp: try
handle-based capture, fall back to rectangle-based capture on failure. -/
def windowCaptureAttempt (p : WindowCapturePayload) (env : CaptureEnv) :
    Except CaptureError Unit :=
  match captureWithId env with
  | Except.ok _ => Except.ok ()
  | Except.error _ => captureWithRect p.rect p.display env

/-- Handler for the window-capture IPC channel: try handle-based capture,
fall back to rectangle-based capture on failure, and on overall success
prepend-truncate-persist the new card; on overall failure rethrow the
rectangle-path error and leave the persisted list untouched. -/
def windowCapture (p : WindowCapturePayload) (env : CaptureEnv)
    (stored : List CardMeta) : HandlerOutcome :=
  match windowCaptureAttempt p env with
  | Except.error e => ⟨Except.error e, stored, false⟩
  | Except.ok _ =>
      let card := mkCard env p.label p.width p.height 120 140 CaptureDir.cards
      let next := persistNewCard card stored
      ⟨Except.ok next, next, true⟩

/-- Transient window-proxy record returned by window-capture-temp. -/
structure ProxyRecord where
  id : String
  fileUrl : String
  filePath : FsPath
  label : String
deriving DecidableEq, Repr

/-- Result of the window-capture-temp handler, together with the persisted
card list after the handler (which the handler never touches). -/
structure TempOutcome where
  result : Except CaptureError ProxyRecord
  stored : List CardMeta
  wroteStore : Bool

/-- Handler for the window-capture-temp IPC channel: same handle-then-rect
fallback, but the image file goes under the app_cards directory and a
transient proxy record is returned; the persisted card list is neither
read nor written. -/
def windowCaptureTemp (p : WindowCapturePayload) (env : CaptureEnv)
    (stored : List CardMeta) : TempOutcome :=
  let filePath : FsPath := ⟨CaptureDir.appCards, cardFileName env⟩
  match windowCaptureAttempt p env with
  | Except.error e => ⟨Except.error e, stored, false⟩
  | Except.ok _ =>
      ⟨Except.ok ⟨env.freshId, pathToFileURL filePath, filePath, p.label⟩, stored, false⟩

/- ---------------------------------------------------------------------
Session watchdog (src/electron/main.ts: resolveTmuxSession, pollTmux).
--------------------------------------------------------------------- -/

/-- Substring test mirroring the JavaScript String.includes method. -/
def containsStr (s pat : String) : Bool :=
  (List.range (s.toList.length + 1)).any (fun i => pat.toList.isPrefixOf (s.toList.drop i))

/-- Last element of the list satisfying the predicate, mirroring the
JavaScript Array.prototype.findLast method. -/
def jsFindLast (p : String → Bool) (l : List String) : Option String :=
  l.reverse.find? p

/-- Alert marker test from pollTmux:
line.includes(\x27ERROR\x27) || line.includes(\x27WARN\x27). -/
def isAlertLine (line : String) : Bool :=
  containsStr line "ERROR" || containsStr line "WARN"

/-- Alert step of one pollTmux cycle, acting on the lastTmuxAlert state:
take the last alert-marker line of the captured lines; if it is truthy and
differs from lastTmuxAlert, update lastTmuxAlert and emit it. Returns the
new lastTmuxAlert and the emitted alert message, if any. -/
def scanAlert (lastAlert : Option String) (lines : List String) :
    Option String × Option String :=
  match jsFindLast isAlertLine lines with
  | some hit =>
      if hit ≠ "" ∧ some hit ≠ lastAlert then (some hit, some hit)
      else (lastAlert, none)
  | none => (lastAlert, none)

/-- Alert steps over consecutive poll cycles, collecting every emitted
alert message in order. -/
def alertRun (lastAlert : Option String) (cycles : List (List String)) :
    Option String × List String :=
  cycles.foldl
    (fun acc lines =>
      let step := scanAlert acc.1 lines
      (step.1, acc.2 ++ step.2.toList))
    (lastAlert, [])

/-- Line post-processing shared by the tmux command handlers:
stdout.split(newline).map(trim).filter(Boolean). -/
def splitOutLines (stdout : String) : List String :=
  ((stdout.splitOn "\n").map (fun line => line.trim)).filter (fun line => line ≠ "")

/-- Last n elements of a list, mirroring the JavaScript slice(-n). -/
def takeLast (n : Nat) (l : List String) : List String :=
  l.drop (l.length - n)

/-- Scrollback lines pollTmux streams: trimmed non-blank lines, last 120. -/
def capturedLines (stdout : String) : List String :=
  takeLast 120 (splitOutLines stdout)

/-- Startup tmux configuration (tmuxConfig in main.ts): session from the
environment (empty when unset) and default window/pane. Immutable. -/
structure TmuxConfig where
  session : String
  window : String
  pane : String

/-- Mutable retarget state (tmuxTarget in main.ts), set by the
tmux-set-target IPC channel. -/
structure TmuxTarget where
  session : String
  window : String
  pane : String
deriving DecidableEq, Repr

/-- External tmux command outcomes for one poll cycle: the stdout of
tmux list-sessions (or none on failure), and the stdout of
tmux capture-pane as a function of the target string (none on failure). -/
structure TmuxEnv where
  listSessions : Option String
  capturePane : String → Option String

/-- Session resolution (resolveTmuxSession in main.ts): the configured
session when nonempty, otherwise the first trimmed nonempty line of
tmux list-sessions output, otherwise none. -/
def resolveTmuxSession (config : TmuxConfig) (env : TmuxEnv) : Option String :=
  if config.session ≠ "" then some config.session
  else
    match env.listSessions with
    | none => none
    | some out => (splitOutLines out).head?

/-- Events pollTmux pushes to the renderer. -/
inductive TmuxPush
  | statusOffline
  | statusError (session : String)
  | statusMonitoring (session : String)
  | debug (message : String)
  | stream (lines : List String)
  | alert (message : String) (session : String)
deriving DecidableEq, Repr

/-- Watchdog state carried across poll cycles: the retarget triple and
lastTmuxAlert. -/
structure PollState where
  target : TmuxTarget
  lastAlert : Option String
deriving DecidableEq, Repr

/-- Target string session:window.pane passed to tmux capture-pane. -/
def tmuxTargetString (session window pane : String) : String :=
  session ++ ":" ++ window ++ "." ++ pane

/-- One watchdog poll cycle (pollTmux in main.ts): resolve a session (going
offline when none resolves), capture the pane scrollback at the effective
target (status error on failure), then stream the lines and run the
deduplicated alert step. Returns the new state and the pushed events. -/
def pollTmux (config : TmuxConfig) (state : PollState) (env : TmuxEnv) :
    PollState × List TmuxPush :=
  match resolveTmuxSession config env with
  | none =>
      (state, [TmuxPush.debug "polling", TmuxPush.statusOffline,
        TmuxPush.debug "no sessions found"])
  | some session =>
      let targetSession := if state.target.session ≠ "" then state.target.session else session
      let targetWindow := if state.target.window ≠ "" then state.target.window else config.window
      let targetPane := if state.target.pane ≠ "" then state.target.pane else config.pane
      let target := tmuxTargetString targetSession targetWindow targetPane
      match env.capturePane target with
      | none =>
          (state, [TmuxPush.debug "polling", TmuxPush.statusError session,
            TmuxPush.debug "capture-pane error"])
      | some stdout =>
          let lines := capturedLines stdout
          let step := scanAlert state.lastAlert lines
          ({ state with lastAlert := step.1 },
            [TmuxPush.debug "polling", TmuxPush.statusMonitoring session,
              TmuxPush.stream lines] ++
              (step.2.map (fun m => TmuxPush.alert m session)).toList)

/- ---------------------------------------------------------------------
Transcription session, main-process side (src/electron/main.ts:
startAsrSession message/close handlers, stopAsrSession).
--------------------------------------------------------------------- -/

/-- Main-process ASR session state: whether the websocket is live
(asrSocket non-null), the task id, the text of the last transcript result
received (asrLastText), the readiness flag and the queued audio frames. -/
structure AsrState where
  socketActive : Bool
  taskId : Option String
  lastText : String
  ready : Bool
  audioQueue : List (List Nat)
deriving DecidableEq, Repr

/-- Events the ASR session pushes to the renderer. -/
inductive AsrPush
  | result (text : String) (isFinal : Bool)
  | errorMsg (message : String)
deriving DecidableEq, Repr

/-- Decoded provider websocket message: header name, coalesced result text
(payload.result / payload.output.text / payload.text, empty when absent)
and the payload-level final flag (is_final / final / sentence_end). -/
structure AsrMessage where
  name : String
  result : String
  finalFlag : Bool

/-- Final-fragment classification from the message handler:
name = SentenceEnd or TranscriptionCompleted, or an explicit final flag. -/
def classifyFinal (m : AsrMessage) : Bool :=
  m.name = "SentenceEnd" || m.name = "TranscriptionCompleted" || m.finalFlag

/-- Websocket message handler: on TranscriptionStarted flip readiness and
flush the audio queue; when the message carries nonempty result text,
record it as asrLastText and push it with its final classification. -/
def onAsrMessage (s : AsrState) (m : AsrMessage) : AsrState × List AsrPush :=
  let s1 :=
    if m.name = "TranscriptionStarted" then { s with ready := true, audioQueue := [] }
    else s
  if m.result ≠ "" then
    ({ s1 with lastText := m.result }, [AsrPush.result m.result (classifyFinal m)])
  else (s1, [])

/-- Websocket close handler: push a final transcript event carrying
asrLastText. Fires whether the close was initiated locally (by
stopAsrSession calling close) or by the remote side. -/
def onAsrClose (s : AsrState) : AsrState × List AsrPush :=
  (s, [AsrPush.result s.lastText true])

/-- Session stop (stopAsrSession in main.ts): a no-op without a live socket
and task id; otherwise send the stop-control message (best effort), close
the transport and clear task id, readiness and the queue. The returned
flag records whether a transport close was initiated (so that the close
handler will subsequently fire). asrLastText is not cleared. -/
def stopAsrSession (s : AsrState) : AsrState × Bool :=
  if s.socketActive ∧ s.taskId ≠ none then
    ({ s with socketActive := false, taskId := none, ready := false, audioQueue := [] }, true)
  else (s, false)

/- ---------------------------------------------------------------------
Renderer transcript accumulation (src/unnamed/part_000, handleAsrResult).
Text is modelled as lists of characters; jsTrim mirrors the JavaScript
String.prototype.trim and isPrefixOf mirrors String.prototype.startsWith.
--------------------------------------------------------------------- -/

/-- Whitespace trim on both ends, mirroring the JavaScript trim method. -/
def jsTrim (s : List Char) : List Char :=
  ((s.dropWhile Char.isWhitespace).reverse.dropWhile Char.isWhitespace).reverse

/-- Renderer voice state: the interim preview, the accumulated final
transcript (voiceFinal, also mirrored into voiceText) and the last
accepted final fragment (lastFinalRef). -/
structure VoiceState where
  voicePreview : List Char
  voiceFinal : List Char
  voiceText : List Char
  lastFinal : List Char
deriving DecidableEq, Repr

/-- Renderer handler for asr-result events (handleAsrResult in the UI
module): interim fragments replace the preview; final fragments are
trimmed, dropped when blank or identical to the last accepted final, and
otherwise merged into the accumulated transcript by prefix-aware
concatenation. -/
def handleAsrResult (s : VoiceState) (text : List Char) (isFinal : Bool) : VoiceState :=
  if isFinal then
    let s1 := { s with voicePreview := [] }
    let clean := jsTrim text
    if clean = [] then s1
    else if clean = s1.lastFinal then s1
    else
      let next :=
        if s1.voiceFinal ≠ [] ∧ s1.voiceFinal.isPrefixOf clean then clean
        else jsTrim (s1.voiceFinal ++ ' ' :: clean)
      { s1 with lastFinal := clean, voiceFinal := next, voiceText := next }
  else { s with voicePreview := text }

/-- Initial renderer voice state (all fields empty). -/
def initialVoiceState : VoiceState := ⟨[], [], [], []⟩

/-- Feed a sequence of final fragments through handleAsrResult. -/
def runFinals (s : VoiceState) (texts : List (List Char)) : VoiceState :=
  texts.foldl (fun acc t => handleAsrResult acc t true) s

/- ---------------------------------------------------------------------
Window/display directory (src/scripts/window_list.swift). Geometry uses
rational coordinates; frameContains mirrors CGRect.contains on a
standardized rectangle (half-open on the far edges).
--------------------------------------------------------------------- -/

/-- Display frame from NSScreen.screens. -/
structure ScreenFrame where
  x : ℚ
  y : ℚ
  w : ℚ
  h : ℚ
deriving DecidableEq, Repr

/-- Point containment test of CGRect.contains. -/
def frameContains (f : ScreenFrame) (px py : ℚ) : Bool :=
  decide (f.x ≤ px ∧ px < f.x + f.w ∧ f.y ≤ py ∧ py < f.y + f.h)

/-- Center point of a window bounding box (origin bx,bY and size bw,bh). -/
def windowCenter (bx bY bw bh : ℚ) : ℚ × ℚ := (bx + bw / 2, bY + bh / 2)

/-- Display assignment reported for one window: 1-based display index and
the display bounds. -/
structure DisplayAssignment where
  displayIndex : Nat
  displayX : ℚ
  displayY : ℚ
  displayW : ℚ
  displayH : ℚ
deriving DecidableEq, Repr

/-- Display assignment from window_list.swift: the first enumerated screen
whose frame contains the center point (reported with 1-based index and its
bounds); when no screen contains the center, index 1 with zero bounds. -/
def assignDisplay (screens : List ScreenFrame) (center : ℚ × ℚ) : DisplayAssignment :=
  match screens.enum.find? (fun q => frameContains q.2 center.1 center.2) with
  | some q => ⟨q.1 + 1, q.2.x, q.2.y, q.2.w, q.2.h⟩
  | none => ⟨1, 0, 0, 0, 0⟩

/- ---------------------------------------------------------------------
Concrete fixtures used by the witness theorems.
--------------------------------------------------------------------- -/

/-- Capture environment in which every external command succeeds. -/
def sampleEnvOk : CaptureEnv := ⟨true, fun _ _ => true, "id1", "ts"⟩

/-- Capture environment in which handle capture fails but rectangle
capture succeeds. -/
def sampleEnvIdFail : CaptureEnv := ⟨false, fun _ _ => true, "id2", "ts"⟩

/-- Capture environment in which both capture commands fail. -/
def sampleEnvAllFail : CaptureEnv := ⟨false, fun _ _ => false, "id3", "ts"⟩

/-- Sample global capture rectangle. -/
def sampleRect : Rect := ⟨10, 20, 30, 40⟩

/-- Sample display info. -/
def sampleDisplay : DisplayInfo := ⟨2, 5, 6, 800, 600⟩

/-- Window-capture payload carrying a rectangle and display info. -/
def samplePayloadRect : WindowCapturePayload :=
  ⟨"42", "lbl", 30, 40, some sampleRect, some sampleDisplay⟩

/-- Window-capture payload carrying no rectangle. -/
def samplePayloadNoRect : WindowCapturePayload := ⟨"42", "lbl", 30, 40, none, none⟩

/-- Startup tmux configuration with no configured session. -/
def c5Config : TmuxConfig := ⟨"", "0", "0"⟩

/-- Watchdog state with an explicitly retargeted session foo. -/
def c5State : PollState := ⟨⟨"foo", "0", "0"⟩, none⟩

/-- Tmux environment in which session enumeration fails while capture-pane
succeeds on every target. -/
def c5Env : TmuxEnv := ⟨none, fun _ => some "line"⟩

/-- Startup tmux configuration with a configured session. -/
def w5Config : TmuxConfig := ⟨"sess", "0", "0"⟩

/-- Watchdog state with an explicitly retargeted session tgt. -/
def w5State : PollState := ⟨⟨"tgt", "1", "2"⟩, none⟩

/-- Tmux environment in which capture-pane succeeds on every target. -/
def w5Env : TmuxEnv := ⟨none, fun _ => some "out"⟩

/-- Live ASR session state fixture. -/
def sampleAsrState : AsrState := ⟨true, some "task", "words", true, []⟩

/-- Display A: bounds 0,0 to 100,100, enumerated first. -/
def c8ScreenA : ScreenFrame := ⟨0, 0, 100, 100⟩

/-- Display B: bounds 50,0 to 150,100, overlapping A, enumerated second. -/
def c8ScreenB : ScreenFrame := ⟨50, 0, 100, 100⟩

/- ---------------------------------------------------------------------
Helper lemmas.
--------------------------------------------------------------------- -/

theorem persistNewCard_length (card : CardMeta) (stored : List CardMeta) :
    (persistNewCard card stored).length = min (stored.length + 1) 20 := by
  unfold persistNewCard
  rw [List.length_take, Nat.min_comm]
  simp

theorem persistNewCard_head (card : CardMeta) (stored : List CardMeta) :
    (persistNewCard card stored).head? = some card := rfl

theorem captureWithId_of_idFail (env : CaptureEnv) (hid : env.idOk = false) :
    captureWithId env = Except.error (CaptureError.execError "screencapture -l failed") := by
  unfold captureWithId
  rw [hid]
  rfl

theorem windowCaptureAttempt_of_idFail (p : WindowCapturePayload) (env : CaptureEnv)
    (hid : env.idOk = false) :
    windowCaptureAttempt p env = captureWithRect p.rect p.display env := by
  unfold windowCaptureAttempt
  rw [captureWithId_of_idFail env hid]

/- ---------------------------------------------------------------------
Claim theorems: capture pipeline.
--------------------------------------------------------------------- -/

/-- Claim C1: for every capture request that succeeds (by rectangle via
cards-capture, or by handle/rectangle via window-capture), the returned
and persisted card list is the new card prepended to the previous list and
truncated to 20 entries: its length is min(previous length + 1, 20), its
first element is the new card, and the new card's freshly generated id
(assumed fresh, as a uuid) is absent from the previous list. -/
theorem capture_success_card_list (rect : Rect) (label : String) (w h : Int)
    (p : WindowCapturePayload) (env : CaptureEnv) (stored : List CardMeta)
    (hfresh : env.freshId ∉ stored.map CardMeta.id) :
    (∀ ret, (cardsCapture rect label w h env stored).result = Except.ok ret →
      (cardsCapture rect label w h env stored).stored = ret ∧
      ret = persistNewCard (mkCard env label w h 80 120 CaptureDir.cards) stored ∧
      ret.length = min (stored.length + 1) 20 ∧
      ret.head? = some (mkCard env label w h 80 120 CaptureDir.cards) ∧
      (mkCard env label w h 80 120 CaptureDir.cards).id ∉ stored.map CardMeta.id) ∧
    (∀ ret, (windowCapture p env stored).result = Except.ok ret →
      (windowCapture p env stored).stored = ret ∧
      ret = persistNewCard (mkCard env p.label p.width p.height 120 140 CaptureDir.cards) stored ∧
      ret.length = min (stored.length + 1) 20 ∧
      ret.head? = some (mkCard env p.label p.width p.height 120 140 CaptureDir.cards) ∧
      (mkCard env p.label p.width p.height 120 140 CaptureDir.cards).id ∉ stored.map CardMeta.id) := by
  constructor
  · intro ret hret
    cases hr : env.rectRuns rect none with
    | false =>
        unfold cardsCapture at hret
        rw [hr] at hret
        simp at hret
    | true =>
        unfold cardsCapture at hret ⊢
        rw [hr] at hret ⊢
        simp only [if_true] at hret ⊢
        have hret' : persistNewCard (mkCard env label w h 80 120 CaptureDir.cards) stored = ret := by
          exact Except.ok.inj hret
        refine ⟨hret', hret'.symm, ?_, ?_, hfresh⟩
        · rw [← hret']
          exact persistNewCard_length _ _
        · rw [← hret']
          exact persistNewCard_head _ _
  · intro ret hret
    cases hatt : windowCaptureAttempt p env with
    | error e =>
        unfold windowCapture at hret
        rw [hatt] at hret
        simp at hret
    | ok u =>
        unfold windowCapture at hret ⊢
        rw [hatt] at hret ⊢
        simp only [] at hret ⊢
        have hret' : persistNewCard (mkCard env p.label p.width p.height 120 140 CaptureDir.cards) stored = ret := by
          exact Except.ok.inj hret
        refine ⟨hret', hret'.symm, ?_, ?_, hfresh⟩
        · rw [← hret']
          exact persistNewCard_length _ _
        · rw [← hret']
          exact persistNewCard_head _ _

/-- Claim C1 witness: a concrete successful cards-capture and a concrete
successful window-capture on an empty previous list. -/
theorem capture_success_card_list_witness :
    (cardsCapture sampleRect "cap" 3 4 sampleEnvOk []).stored =
      [mkCard sampleEnvOk "cap" 3 4 80 120 CaptureDir.cards] ∧
    (windowCapture samplePayloadRect sampleEnvOk []).stored =
      [mkCard sampleEnvOk "lbl" 30 40 120 140 CaptureDir.cards] := by
  have h := capture_success_card_list sampleRect "cap" 3 4 samplePayloadRect sampleEnvOk []
    (by simp)
  have h1 := (h.1 [mkCard sampleEnvOk "cap" 3 4 80 120 CaptureDir.cards] rfl).1
  have h2 := (h.2 [mkCard sampleEnvOk "lbl" 30 40 120 140 CaptureDir.cards] rfl).1
  exact ⟨h1, h2⟩

/-- Claim C4: for every window-capture request whose handle-based capture
fails: if a rectangle is supplied, the pipeline falls back to
rectangle-based capture (at the display-transformed coordinates) and
succeeds when that capture succeeds; if no rectangle is supplied the
operation fails with the missing-rect error. -/
theorem window_capture_fallback (p : WindowCapturePayload) (env : CaptureEnv)
    (stored : List CardMeta) (hid : env.idOk = false) :
    (∀ r, p.rect = some r →
      env.rectRuns (rectCaptureCoords r p.display).1 (rectCaptureCoords r p.display).2 = true →
      (windowCapture p env stored).result =
        Except.ok (persistNewCard
          (mkCard env p.label p.width p.height 120 140 CaptureDir.cards) stored)) ∧
    (p.rect = none →
      (windowCapture p env stored).result = Except.error CaptureError.missingRect) := by
  have hatt := windowCaptureAttempt_of_idFail p env hid
  constructor
  · intro r hr hrun
    have hrect : captureWithRect p.rect p.display env = Except.ok () := by
      unfold captureWithRect
      rw [hr]
      simp only [hrun, if_true]
    unfold windowCapture
    rw [hatt, hrect]
  · intro hr
    have hrect : captureWithRect p.rect p.display env = Except.error CaptureError.missingRect := by
      unfold captureWithRect
      rw [hr]
    unfold windowCapture
    rw [hatt, hrect]

/-- Claim C4 witness: handle capture failing with a rectangle and display
supplied succeeds via the fallback; handle capture failing with no
rectangle yields the missing-rect error. -/
theorem window_capture_fallback_witness :
    (windowCapture samplePayloadRect sampleEnvIdFail []).result =
      Except.ok (persistNewCard
        (mkCard sampleEnvIdFail "lbl" 30 40 120 140 CaptureDir.cards) []) ∧
    (windowCapture samplePayloadNoRect sampleEnvIdFail []).result =
      Except.error CaptureError.missingRect := by
  have h1 := window_capture_fallback samplePayloadRect sampleEnvIdFail [] rfl
  have h2 := window_capture_fallback samplePayloadNoRect sampleEnvIdFail [] rfl
  exact ⟨h1.1 sampleRect rfl rfl, h2.2 rfl⟩

/-- Claim C7: for every rectangle-based capture carrying display info, the
coordinates passed to the capture command are the display-local transform
of the global rectangle, local_x = global_x - display_x and
local_y = display_height - (global_y - display_y) - rect_height, with the
display index passed as the capture target; with no display info the
global coordinates are used unchanged. -/
theorem rect_capture_display_transform (r : Rect) (d : DisplayInfo) (env : CaptureEnv) :
    rectCaptureCoords r (some d) =
      (⟨r.x - d.x, d.h - (r.y - d.y) - r.h, r.w, r.h⟩, some d.index) ∧
    rectCaptureCoords r none = (r, none) ∧
    captureWithRect (some r) (some d) env =
      (if env.rectRuns ⟨r.x - d.x, d.h - (r.y - d.y) - r.h, r.w, r.h⟩ (some d.index)
        then Except.ok ()
        else Except.error (CaptureError.execError "screencapture -R failed")) := by
  refine ⟨rfl, rfl, ?_⟩
  unfold captureWithRect
  rfl

/-- Claim C9: for every window-capture request in which both the
handle-based and the rectangle-based capture fail, the operation fails and
the persisted card list is unchanged and not rewritten. -/
theorem window_capture_both_fail_no_mutation (p : WindowCapturePayload)
    (env : CaptureEnv) (stored : List CardMeta) (hid : env.idOk = false)
    (hrect : ∀ r, p.rect = some r →
      env.rectRuns (rectCaptureCoords r p.display).1 (rectCaptureCoords r p.display).2 = false) :
    (∃ e, (windowCapture p env stored).result = Except.error e) ∧
    (windowCapture p env stored).stored = stored ∧
    (windowCapture p env stored).wroteStore = false := by
  have hatt := windowCaptureAttempt_of_idFail p env hid
  cases hr : p.rect with
  | none =>
      have hrw : captureWithRect p.rect p.display env = Except.error CaptureError.missingRect := by
        unfold captureWithRect
        rw [hr]
      unfold windowCapture
      rw [hatt, hrw]
      exact ⟨⟨CaptureError.missingRect, rfl⟩, rfl, rfl⟩
  | some r =>
      have hrun := hrect r hr
      have hrw : captureWithRect p.rect p.display env =
          Except.error (CaptureError.execError "screencapture -R failed") := by
        unfold captureWithRect
        rw [hr]
        simp only [hrun, if_false, Bool.false_eq_true]
      unfold windowCapture
      rw [hatt, hrw]
      exact ⟨⟨CaptureError.execError "screencapture -R failed", rfl⟩, rfl, rfl⟩

/-- Claim C9 witness: a concrete window-capture whose handle and rectangle
paths both fail leaves the one-card stored list untouched. -/
theorem window_capture_both_fail_no_mutation_witness :
    (windowCapture samplePayloadRect sampleEnvAllFail
        [mkCard sampleEnvOk "old" 1 1 80 120 CaptureDir.cards]).stored =
      [mkCard sampleEnvOk "old" 1 1 80 120 CaptureDir.cards] ∧
    (windowCapture samplePayloadRect sampleEnvAllFail
        [mkCard sampleEnvOk "old" 1 1 80 120 CaptureDir.cards]).wroteStore = false := by
  have h := window_capture_both_fail_no_mutation samplePayloadRect sampleEnvAllFail
    [mkCard sampleEnvOk "old" 1 1 80 120 CaptureDir.cards] rfl (fun r _ => rfl)
  exact ⟨h.2.1, h.2.2⟩

/-- Claim C10: for every transient window-proxy capture
(window-capture-temp), the image file is written under the separate
app-proxy directory and a proxy record with the generated id, file url,
file path and the request label is returned, while the persisted card list
is never read or written. -/
theorem window_capture_temp_no_card_list_effect (p : WindowCapturePayload)
    (env : CaptureEnv) (stored : List CardMeta) :
    (windowCaptureTemp p env stored).stored = stored ∧
    (windowCaptureTemp p env stored).wroteStore = false ∧
    (∀ rec, (windowCaptureTemp p env stored).result = Except.ok rec →
      rec = ⟨env.freshId, pathToFileURL ⟨CaptureDir.appCards, cardFileName env⟩,
        ⟨CaptureDir.appCards, cardFileName env⟩, p.label⟩ ∧
      rec.filePath.dir = CaptureDir.appCards) := by
  cases hatt : windowCaptureAttempt p env with
  | error e =>
      unfold windowCaptureTemp
      rw [hatt]
      refine ⟨rfl, rfl, ?_⟩
      intro rec hrec
      simp at hrec
  | ok u =>
      unfold windowCaptureTemp
      rw [hatt]
      refine ⟨rfl, rfl, ?_⟩
      intro rec hrec
      have hrec' := Except.ok.inj hrec
      rw [← hrec']
      exact ⟨rfl, rfl⟩

/-- Claim C10 witness: a concrete successful window-capture-temp leaves
the stored list unchanged and returns the app-proxy record. -/
theorem window_capture_temp_no_card_list_effect_witness :
    (windowCaptureTemp samplePayloadRect sampleEnvOk
        [mkCard sampleEnvOk "old" 1 1 80 120 CaptureDir.cards]).stored =
      [mkCard sampleEnvOk "old" 1 1 80 120 CaptureDir.cards] ∧
    (windowCaptureTemp samplePayloadRect sampleEnvOk []).result =
      Except.ok ⟨sampleEnvOk.freshId,
        pathToFileURL ⟨CaptureDir.appCards, cardFileName sampleEnvOk⟩,
        ⟨CaptureDir.appCards, cardFileName sampleEnvOk⟩, "lbl"⟩ := by
  have h := window_capture_temp_no_card_list_effect samplePayloadRect sampleEnvOk
    [mkCard sampleEnvOk "old" 1 1 80 120 CaptureDir.cards]
  exact ⟨h.1, rfl⟩

/- ---------------------------------------------------------------------
Claim theorems: session watchdog.
--------------------------------------------------------------------- -/

theorem jsFindLast_eq_some (p : String → Bool) (l : List String) (x : String)
    (h : jsFindLast p l = some x) : x ∈ l ∧ p x = true := by
  unfold jsFindLast at h
  exact ⟨List.mem_reverse.mp (List.mem_of_find?_eq_some h), List.find?_some h⟩

theorem alertRun_pair (la : Option String) (l1 l2 : List String) :
    alertRun la [l1, l2] =
      ((scanAlert (scanAlert la l1).1 l2).1,
        (scanAlert la l1).2.toList ++ (scanAlert (scanAlert la l1).1 l2).2.toList) := by
  unfold alertRun
  simp

theorem scanAlert_eq_of_find (la : Option String) (l : List String) (h0 : String)
    (hf : jsFindLast isAlertLine l = some h0) :
    scanAlert la l =
      if h0 ≠ "" ∧ some h0 ≠ la then (some h0, some h0) else (la, none) := by
  unfold scanAlert
  rw [hf]

theorem scanAlert_eq_of_find_none (la : Option String) (l : List String)
    (hf : jsFindLast isAlertLine l = none) :
    scanAlert la l = (la, none) := by
  unfold scanAlert
  rw [hf]

/-- Claim C2: in every watchdog poll cycle the alert rule takes the last
scrollback line containing an ERROR or WARN marker and emits an alert
exactly when such a line exists and differs from lastAlertLine, updating
lastAlertLine on emission; starting fresh, two consecutive cycles with the
identical last matching line emit exactly one alert, and two cycles with
differing matching lines emit two. -/
theorem watchdog_alert_dedup (la : Option String) (l1 l2 : List String)
    (h1 : "" ∉ l1) (h2 : "" ∉ l2) :
    (∀ hit, (scanAlert la l1).2 = some hit ↔
      (jsFindLast isAlertLine l1 = some hit ∧ some hit ≠ la)) ∧
    (∀ hit, (scanAlert la l1).2 = some hit → (scanAlert la l1).1 = some hit) ∧
    (∀ hit, jsFindLast isAlertLine l1 = some hit → jsFindLast isAlertLine l2 = some hit →
      (alertRun none [l1, l2]).2 = [hit]) ∧
    (∀ hit1 hit2, jsFindLast isAlertLine l1 = some hit1 →
      jsFindLast isAlertLine l2 = some hit2 → hit1 ≠ hit2 →
      (alertRun none [l1, l2]).2 = [hit1, hit2]) := by
  have hemit : ∀ (la2 : Option String) (l : List String), "" ∉ l → ∀ hit,
      (scanAlert la2 l).2 = some hit ↔
        (jsFindLast isAlertLine l = some hit ∧ some hit ≠ la2) := by
    intro la2 l hl hit
    cases hf : jsFindLast isAlertLine l with
    | none =>
        rw [scanAlert_eq_of_find_none la2 l hf]
        simp
    | some h0 =>
        have hmem := jsFindLast_eq_some _ _ _ hf
        have hne : h0 ≠ "" := by
          intro hEq
          rw [hEq] at hmem
          exact hl hmem.1
        rw [scanAlert_eq_of_find la2 l h0 hf]
        by_cases hcond : some h0 ≠ la2
        · rw [if_pos ⟨hne, hcond⟩]
          simp only [Option.some.injEq]
          constructor
          · intro hEq
            exact ⟨by rw [hEq], by rw [← hEq]; exact hcond⟩
          · intro hEq
            exact hEq.1
        · rw [if_neg (fun hc => hcond hc.2)]
          simp only [Option.some.injEq]
          constructor
          · intro hEq
            exact absurd hEq (by simp)
          · intro hEq
            rw [← hEq.1] at hEq
            exact absurd hEq.2 hcond
  have hupd : ∀ (la2 : Option String) (l : List String) (hit : String),
      (scanAlert la2 l).2 = some hit → (scanAlert la2 l).1 = some hit := by
    intro la2 l hit h
    cases hf : jsFindLast isAlertLine l with
    | none =>
        rw [scanAlert_eq_of_find_none la2 l hf] at h
        simp at h
    | some h0 =>
        rw [scanAlert_eq_of_find la2 l h0 hf] at h ⊢
        by_cases hcond : h0 ≠ "" ∧ some h0 ≠ la2
        · rw [if_pos hcond] at h ⊢
          exact h
        · rw [if_neg hcond] at h
          simp at h
  refine ⟨hemit la l1 h1, hupd la l1, ?_, ?_⟩
  · intro hit hf1 hf2
    have hne1 : hit ≠ "" := by
      intro hEq
      have hmem := jsFindLast_eq_some _ _ _ hf1
      rw [hEq] at hmem
      exact h1 hmem.1
    have s1 : scanAlert none l1 = (some hit, some hit) := by
      rw [scanAlert_eq_of_find none l1 hit hf1, if_pos ⟨hne1, by simp⟩]
    have s2 : scanAlert (some hit) l2 = (some hit, none) := by
      rw [scanAlert_eq_of_find (some hit) l2 hit hf2,
        if_neg (fun hc => hc.2 rfl)]
    rw [alertRun_pair, s1]
    simp only []
    rw [s2]
    simp
  · intro hit1 hit2 hf1 hf2 h12
    have hne1 : hit1 ≠ "" := by
      intro hEq
      have hmem := jsFindLast_eq_some _ _ _ hf1
      rw [hEq] at hmem
      exact h1 hmem.1
    have hne2 : hit2 ≠ "" := by
      intro hEq
      have hmem := jsFindLast_eq_some _ _ _ hf2
      rw [hEq] at hmem
      exact h2 hmem.1
    have s1 : scanAlert none l1 = (some hit1, some hit1) := by
      rw [scanAlert_eq_of_find none l1 hit1 hf1, if_pos ⟨hne1, by simp⟩]
    have s2 : scanAlert (some hit1) l2 = (some hit2, some hit2) := by
      rw [scanAlert_eq_of_find (some hit1) l2 hit2 hf2,
        if_pos ⟨hne2, fun hc => h12 (Option.some.inj hc).symm⟩]
    rw [alertRun_pair, s1]
    simp only []
    rw [s2]
    simp

/-- Claim C2 witness: the spec concrete cycles. With lines
a / ERROR: x / b then c / ERROR: x / d exactly one alert is emitted; with
ERROR: x then ERROR: y two alerts are emitted. -/
theorem watchdog_alert_dedup_witness :
    (alertRun none [["a", "ERROR: x", "b"], ["c", "ERROR: x", "d"]]).2 = ["ERROR: x"] ∧
    (alertRun none [["ERROR: x"], ["ERROR: y"]]).2 = ["ERROR: x", "ERROR: y"] := by
  have hA := watchdog_alert_dedup none ["a", "ERROR: x", "b"] ["c", "ERROR: x", "d"]
    (by decide) (by decide)
  have hB := watchdog_alert_dedup none ["ERROR: x"] ["ERROR: y"] (by decide) (by decide)
  exact ⟨hA.2.2.1 "ERROR: x" (by decide) (by decide),
    hB.2.2.2 "ERROR: x" "ERROR: y" (by decide) (by decide) (by decide)⟩

theorem pollTmux_offline (config : TmuxConfig) (state : PollState) (env : TmuxEnv)
    (h : resolveTmuxSession config env = none) :
    pollTmux config state env =
      (state, [TmuxPush.debug "polling", TmuxPush.statusOffline,
        TmuxPush.debug "no sessions found"]) := by
  unfold pollTmux
  rw [h]

theorem pollTmux_monitoring (config : TmuxConfig) (state : PollState) (env : TmuxEnv)
    (session stdout : String)
    (h : resolveTmuxSession config env = some session)
    (hc : env.capturePane (tmuxTargetString
      (if state.target.session ≠ "" then state.target.session else session)
      (if state.target.window ≠ "" then state.target.window else config.window)
      (if state.target.pane ≠ "" then state.target.pane else config.pane)) = some stdout) :
    pollTmux config state env =
      ({ state with lastAlert := (scanAlert state.lastAlert (capturedLines stdout)).1 },
        [TmuxPush.debug "polling", TmuxPush.statusMonitoring session,
          TmuxPush.stream (capturedLines stdout)] ++
          ((scanAlert state.lastAlert (capturedLines stdout)).2.map
            (fun m => TmuxPush.alert m session)).toList) := by
  simp only [pollTmux, h, hc]

/-- Claim C5 counterexample: with the startup-configured session empty, an
explicit retarget session set to foo, session enumeration failing and
capture-pane succeeding on every target, the cycle emits status offline
and never reaches monitoring of foo; the claim instead predicts that the
explicitly set target session resolves and the cycle proceeds. -/
theorem watchdog_resolution_counterexample :
    c5State.target.session = "foo" ∧ "foo" ≠ "" ∧
    c5Env.capturePane (tmuxTargetString "foo" "0" "0") = some "line" ∧
    (pollTmux c5Config c5State c5Env).2 =
      [TmuxPush.debug "polling", TmuxPush.statusOffline,
        TmuxPush.debug "no sessions found"] ∧
    TmuxPush.statusMonitoring "foo" ∉ (pollTmux c5Config c5State c5Env).2 := by
  refine ⟨rfl, by decide, rfl, ?_, ?_⟩
  · rw [pollTmux_offline c5Config c5State c5Env rfl]
  · rw [pollTmux_offline c5Config c5State c5Env rfl]
    decide

/-- Claim C5, amended: each cycle resolves an available session from the
startup-configured session if nonempty, else the first enumerated
session; if that resolution fails the cycle emits status offline and stops
without capturing, streaming or alerting, even when an explicit retarget
target is set; when it succeeds, the pane actually captured is addressed
by the explicit retarget session/window/pane when nonempty (falling back
to the resolved session and configured window/pane), and the cycle emits
monitoring status, the stream lines and the deduplicated alert, with the
status and alert events tagged with the resolved session. -/
theorem watchdog_session_resolution (config : TmuxConfig) (state : PollState)
    (env : TmuxEnv) :
    (config.session ≠ "" → resolveTmuxSession config env = some config.session) ∧
    (config.session = "" → env.listSessions = none →
      resolveTmuxSession config env = none) ∧
    (∀ out, config.session = "" → env.listSessions = some out →
      resolveTmuxSession config env = (splitOutLines out).head?) ∧
    (resolveTmuxSession config env = none →
      pollTmux config state env =
        (state, [TmuxPush.debug "polling", TmuxPush.statusOffline,
          TmuxPush.debug "no sessions found"])) ∧
    (∀ session stdout, resolveTmuxSession config env = some session →
      env.capturePane (tmuxTargetString
        (if state.target.session ≠ "" then state.target.session else session)
        (if state.target.window ≠ "" then state.target.window else config.window)
        (if state.target.pane ≠ "" then state.target.pane else config.pane)) = some stdout →
      pollTmux config state env =
        ({ state with lastAlert := (scanAlert state.lastAlert (capturedLines stdout)).1 },
          [TmuxPush.debug "polling", TmuxPush.statusMonitoring session,
            TmuxPush.stream (capturedLines stdout)] ++
            ((scanAlert state.lastAlert (capturedLines stdout)).2.map
              (fun m => TmuxPush.alert m session)).toList)) := by
  refine ⟨?_, ?_, ?_, pollTmux_offline config state env,
    fun session stdout h hc => pollTmux_monitoring config state env session stdout h hc⟩
  · intro h
    unfold resolveTmuxSession
    rw [if_pos h]
  · intro h hls
    unfold resolveTmuxSession
    rw [if_neg (by simp [h]), hls]
  · intro out h hls
    unfold resolveTmuxSession
    rw [if_neg (by simp [h]), hls]

/-- Claim C5 witness: with a configured session and a retarget set, the
cycle resolves the configured session and captures the retargeted pane. -/
theorem watchdog_session_resolution_witness :
    resolveTmuxSession w5Config w5Env = some "sess" ∧
    pollTmux w5Config w5State w5Env =
      ({ w5State with lastAlert := (scanAlert none (capturedLines "out")).1 },
        [TmuxPush.debug "polling", TmuxPush.statusMonitoring "sess",
          TmuxPush.stream (capturedLines "out")] ++
          ((scanAlert none (capturedLines "out")).2.map
            (fun m => TmuxPush.alert m "sess")).toList) := by
  have h := watchdog_session_resolution w5Config w5State w5Env
  have h1 : resolveTmuxSession w5Config w5Env = some "sess" := h.1 (by decide)
  refine ⟨h1, ?_⟩
  have h5 := h.2.2.2.2 "sess" "out" h1 rfl
  exact h5

/- ---------------------------------------------------------------------
Claim theorems: transcription session.
--------------------------------------------------------------------- -/

/-- Claim C6: whenever the streaming transport closes, whether initiated
locally by stop or by the remote side, a final transcript event
(isFinal = true) is pushed carrying the last known transcript text
(asrLastText, which the spec calls the accumulated text); a local stop on
a live session initiates such a close and does not clear asrLastText. -/
theorem transport_close_final_event (s : AsrState)
    (hsock : s.socketActive = true) (htask : s.taskId ≠ none) :
    (∀ t : AsrState, (onAsrClose t).2 = [AsrPush.result t.lastText true]) ∧
    (stopAsrSession s).2 = true ∧
    ((stopAsrSession s).1).lastText = s.lastText ∧
    (onAsrClose (stopAsrSession s).1).2 = [AsrPush.result s.lastText true] := by
  have hstop : stopAsrSession s =
      ({ s with socketActive := false, taskId := none, ready := false, audioQueue := [] }, true) := by
    unfold stopAsrSession
    rw [if_pos ⟨hsock, htask⟩]
  refine ⟨fun t => rfl, ?_, ?_, ?_⟩
  · rw [hstop]
  · rw [hstop]
  · rw [hstop]
    rfl

/-- Claim C6 witness: stopping a live session with last text words
initiates a transport close whose close event pushes the final transcript
event carrying words. -/
theorem transport_close_final_event_witness :
    (stopAsrSession sampleAsrState).2 = true ∧
    (onAsrClose (stopAsrSession sampleAsrState).1).2 =
      [AsrPush.result "words" true] := by
  have h := transport_close_final_event sampleAsrState rfl (by simp [sampleAsrState])
  exact ⟨h.2.1, h.2.2.2⟩

/- ---------------------------------------------------------------------
Claim theorems: window/display directory.
--------------------------------------------------------------------- -/

theorem mem_of_mem_enumFrom (q : Nat × ScreenFrame) :
    ∀ (l : List ScreenFrame) (n : Nat), q ∈ List.enumFrom n l → q.2 ∈ l := by
  intro l
  induction l with
  | nil => intro n h; simp at h
  | cons a t ih =>
      intro n h
      rw [List.enumFrom_cons] at h
      rcases List.mem_cons.mp h with h | h
      · rw [h]
        exact List.mem_cons_self a t
      · exact List.mem_cons_of_mem a (ih (n + 1) h)

theorem enumFrom_find?_of_first (p : ScreenFrame → Bool) :
    ∀ (l : List ScreenFrame) (n i : Nat) (hi : i < l.length),
      (∀ j, (hj : j < l.length) → j < i → p (l.get ⟨j, hj⟩) = false) →
      p (l.get ⟨i, hi⟩) = true →
      (List.enumFrom n l).find? (fun q => p q.2) = some (n + i, l.get ⟨i, hi⟩) := by
  intro l
  induction l with
  | nil => intro n i hi; simp at hi
  | cons a t ih =>
      intro n i hi hbefore hp
      cases i with
      | zero =>
          rw [List.enumFrom_cons, List.find?_cons_of_pos _ (by simpa using hp)]
          simp
      | succ i2 =>
          have ha : p a = false := hbefore 0 (by omega) (by omega)
          rw [List.enumFrom_cons, List.find?_cons_of_neg _ (by simpa using ha)]
          have ht := ih (n + 1) i2 (by simpa using Nat.lt_of_succ_lt_succ hi)
            (fun j hj hji => hbefore (j + 1) (by omega) (by omega))
            (by simpa using hp)
          rw [ht]
          have harith : n + 1 + i2 = n + (i2 + 1) := by omega
          rw [harith]
          rfl

/-- Claim C8 counterexample: displays A and B overlap and the window
center 70,50 (bounding box 60,40,20,20) lies inside both; the directory
assigns display index 1 (display A, first enumerated), not B index 2, so a
window whose center lies inside display B can be assigned overlapping
display A. -/
theorem window_display_counterexample :
    windowCenter 60 40 20 20 = ((70 : ℚ), (50 : ℚ)) ∧
    frameContains c8ScreenB 70 50 = true ∧
    frameContains c8ScreenA 70 50 = true ∧
    (assignDisplay [c8ScreenA, c8ScreenB] (70, 50)).displayIndex = 1 ∧
    (1 : Nat) ≠ 2 := by
  have hA : frameContains c8ScreenA 70 50 = true := by
    norm_num [frameContains, c8ScreenA]
  have hB : frameContains c8ScreenB 70 50 = true := by
    norm_num [frameContains, c8ScreenB]
  refine ⟨by norm_num [windowCenter], hB, hA, ?_, by omega⟩
  simp [assignDisplay, List.enum, List.find?, hA]

/-- Claim C8, amended: each window is assigned the first enumerated
display whose bounds contain the window center (reporting that display
1-based index and bounds); in particular a window whose center lies inside
display B and inside no earlier-enumerated display is assigned B, even
when displays overlap; when no display contains the center the window
defaults to display index 1 with zero bounds. -/
theorem window_display_assignment (screens : List ScreenFrame) (c : ℚ × ℚ) :
    (∀ i, (hi : i < screens.length) →
      frameContains (screens.get ⟨i, hi⟩) c.1 c.2 = true →
      (∀ j, (hj : j < screens.length) → j < i →
        frameContains (screens.get ⟨j, hj⟩) c.1 c.2 = false) →
      assignDisplay screens c =
        ⟨i + 1, (screens.get ⟨i, hi⟩).x, (screens.get ⟨i, hi⟩).y,
          (screens.get ⟨i, hi⟩).w, (screens.get ⟨i, hi⟩).h⟩) ∧
    ((∀ f ∈ screens, frameContains f c.1 c.2 = false) →
      assignDisplay screens c = ⟨1, 0, 0, 0, 0⟩) := by
  constructor
  · intro i hi hp hbefore
    unfold assignDisplay
    have henum : screens.enum = List.enumFrom 0 screens := rfl
    rw [henum, enumFrom_find?_of_first (fun f => frameContains f c.1 c.2) screens 0 i hi
      hbefore hp]
    simp
  · intro hnone
    unfold assignDisplay
    have hfind : screens.enum.find? (fun q => frameContains q.2 c.1 c.2) = none := by
      rw [List.find?_eq_none]
      intro q hq
      have := hnone q.2 (mem_of_mem_enumFrom q screens 0 hq)
      simp [this]
    rw [hfind]

/-- Claim C8 witness: the center 120,50 lies inside display B only, so the
window is assigned display index 2 with B bounds even though A and B
overlap. -/
theorem window_display_assignment_witness :
    assignDisplay [c8ScreenA, c8ScreenB] (120, 50) =
      ⟨2, c8ScreenB.x, c8ScreenB.y, c8ScreenB.w, c8ScreenB.h⟩ := by
  have h := (window_display_assignment [c8ScreenA, c8ScreenB] (120, 50)).1 1 (by simp)
    (by show frameContains c8ScreenB 120 50 = true
        norm_num [frameContains, c8ScreenB])
    (fun j hj hj1 => by
      have hj0 : j = 0 := by omega
      subst hj0
      show frameContains c8ScreenA 120 50 = false
      norm_num [frameContains, c8ScreenA])
  exact h

/- ---------------------------------------------------------------------
Claim theorems: renderer transcript accumulation.
--------------------------------------------------------------------- -/

theorem dropWhile_length_le (p : Char → Bool) (l : List Char) :
    (l.dropWhile p).length ≤ l.length := by
  induction l with
  | nil => simp
  | cons a t ih =>
      rw [List.dropWhile_cons]
      by_cases h : p a = true
      · simp only [h, if_true]
        exact Nat.le_succ_of_le ih
      · simp [h]

theorem dropWhile_dropWhile (p : Char → Bool) (l : List Char) :
    (l.dropWhile p).dropWhile p = l.dropWhile p := by
  induction l with
  | nil => rfl
  | cons a t ih =>
      rw [List.dropWhile_cons]
      by_cases h : p a = true
      · simp only [h, if_true]
        exact ih
      · simp [List.dropWhile_cons, h]

theorem head_not_of_dropWhile_eq (p : Char → Bool) (c : Char) (l : List Char)
    (h : (c :: l).dropWhile p = c :: l) : p c = false := by
  cases hpc : p c
  · rfl
  · rw [List.dropWhile_cons, hpc, if_pos rfl] at h
    have := dropWhile_length_le p l
    have h2 := congrArg List.length h
    simp at h2
    omega

theorem dropWhile_eq_self_of_prefix (m l : List Char) (hpre : m <+: l)
    (hl : l.dropWhile Char.isWhitespace = l) :
    m.dropWhile Char.isWhitespace = m := by
  cases m with
  | nil => rfl
  | cons c cs =>
      obtain ⟨t, ht⟩ := hpre
      have hl2 : l = c :: (cs ++ t) := by rw [← ht]; simp
      rw [hl2] at hl
      have hc := head_not_of_dropWhile_eq _ _ _ hl
      rw [List.dropWhile_cons, hc]
      simp

theorem dropWhile_reverse_dropWhile (l : List Char)
    (hl : l.dropWhile Char.isWhitespace = l) :
    ((l.reverse.dropWhile Char.isWhitespace).reverse).dropWhile Char.isWhitespace
      = (l.reverse.dropWhile Char.isWhitespace).reverse := by
  have hsuff : l.reverse.dropWhile Char.isWhitespace <:+ l.reverse :=
    List.dropWhile_suffix _
  have hpre : (l.reverse.dropWhile Char.isWhitespace).reverse <+: l := by
    have h2 := ( List.reverse_prefix).mpr hsuff
    simpa using h2
  exact dropWhile_eq_self_of_prefix _ l hpre hl

theorem jsTrim_noLead (s : List Char) :
    (jsTrim s).dropWhile Char.isWhitespace = jsTrim s := by
  unfold jsTrim
  exact dropWhile_reverse_dropWhile _ (dropWhile_dropWhile _ s)

theorem jsTrim_noTrail (s : List Char) :
    (jsTrim s).reverse.dropWhile Char.isWhitespace = (jsTrim s).reverse := by
  unfold jsTrim
  rw [List.reverse_reverse]
  exact dropWhile_dropWhile _ _

theorem jsTrim_of_noLead_noTrail (l : List Char)
    (h1 : l.dropWhile Char.isWhitespace = l)
    (h2 : l.reverse.dropWhile Char.isWhitespace = l.reverse) :
    jsTrim l = l := by
  unfold jsTrim
  rw [h1, h2, List.reverse_reverse]

theorem jsTrim_idem (s : List Char) : jsTrim (jsTrim s) = jsTrim s :=
  jsTrim_of_noLead_noTrail _ (jsTrim_noLead s) (jsTrim_noTrail s)

theorem space_isWhitespace : Char.isWhitespace ' ' = true := by decide

theorem jsTrim_space_cons (v : List Char) (hv : jsTrim v = v) :
    jsTrim (' ' :: v) = v := by
  have h1 : (' ' :: v).dropWhile Char.isWhitespace = v.dropWhile Char.isWhitespace := by
    rw [List.dropWhile_cons, space_isWhitespace, if_pos rfl]
  unfold jsTrim
  rw [h1]
  exact hv

theorem noLead_of_jsTrim_eq (l : List Char) (h : jsTrim l = l) :
    l.dropWhile Char.isWhitespace = l := by
  conv_lhs => rw [← h]
  conv_rhs => rw [← h]
  exact jsTrim_noLead l

theorem noTrail_of_jsTrim_eq (l : List Char) (h : jsTrim l = l) :
    l.reverse.dropWhile Char.isWhitespace = l.reverse := by
  conv_lhs => rw [← h]
  conv_rhs => rw [← h]
  exact jsTrim_noTrail l

theorem jsTrim_append_space (u v : List Char)
    (hu : jsTrim u = u) (hv : jsTrim v = v)
    (hu0 : u ≠ []) (hv0 : v ≠ []) :
    jsTrim (u ++ ' ' :: v) = u ++ ' ' :: v := by
  apply jsTrim_of_noLead_noTrail
  · cases hu2 : u with
    | nil => exact absurd hu2 hu0
    | cons c u3 =>
        have hlead := noLead_of_jsTrim_eq u hu
        rw [hu2] at hlead
        have hc := head_not_of_dropWhile_eq _ _ _ hlead
        rw [List.cons_append, List.dropWhile_cons, hc]
        simp
  · have htrail := noTrail_of_jsTrim_eq v hv
    cases hv2 : v.reverse with
    | nil =>
        exact absurd (by simpa using congrArg List.reverse hv2) hv0
    | cons c vr =>
        rw [hv2] at htrail
        have hc := head_not_of_dropWhile_eq _ _ _ htrail
        have hrw : (u ++ ' ' :: v).reverse = c :: (vr ++ ' ' :: u.reverse) := by
          rw [List.reverse_append, List.reverse_cons, hv2]
          simp
        rw [hrw, List.dropWhile_cons, hc]
        simp

theorem handleAsrResult_merge_eq (s : VoiceState) (text : List Char)
    (h0 : jsTrim text ≠ []) (hlast : jsTrim text ≠ s.lastFinal) :
    handleAsrResult s text true =
      { voicePreview := [],
        voiceFinal := (if s.voiceFinal ≠ [] ∧ s.voiceFinal.isPrefixOf (jsTrim text)
          then jsTrim text else jsTrim (s.voiceFinal ++ ' ' :: jsTrim text)),
        voiceText := (if s.voiceFinal ≠ [] ∧ s.voiceFinal.isPrefixOf (jsTrim text)
          then jsTrim text else jsTrim (s.voiceFinal ++ ' ' :: jsTrim text)),
        lastFinal := jsTrim text } := by
  unfold handleAsrResult
  split_ifs with hf h1 h2 <;> first
    | rfl
    | (exact absurd h1 h0)
    | (exact absurd h2 hlast)
    | simp_all

/-- Claim C3: a final fragment whose trimmed text is empty or identical to
the last accepted final is ignored; otherwise, if the new final starts
with the previous accumulated text the accumulated text is replaced by the
new final, else the new final is appended with a separating space; hence
finals hello then hello world accumulate to hello world, and hello twice
accumulates to hello once. -/
theorem transcript_final_merge (s : VoiceState) (text : List Char)
    (hprev : jsTrim s.voiceFinal = s.voiceFinal) :
    (jsTrim text = [] → handleAsrResult s text true = { s with voicePreview := [] }) ∧
    (jsTrim text = s.lastFinal → handleAsrResult s text true = { s with voicePreview := [] }) ∧
    (jsTrim text ≠ [] → jsTrim text ≠ s.lastFinal →
      (handleAsrResult s text true).lastFinal = jsTrim text ∧
      (s.voiceFinal.isPrefixOf (jsTrim text) = true →
        (handleAsrResult s text true).voiceFinal = jsTrim text) ∧
      (s.voiceFinal.isPrefixOf (jsTrim text) = false →
        (handleAsrResult s text true).voiceFinal = s.voiceFinal ++ ' ' :: jsTrim text)) ∧
    (runFinals initialVoiceState ["hello".toList, "hello world".toList]).voiceFinal
      = "hello world".toList ∧
    (runFinals initialVoiceState ["hello".toList, "hello".toList]).voiceFinal
      = "hello".toList := by
  refine ⟨?_, ?_, ?_, by decide, by decide⟩
  · intro h
    unfold handleAsrResult
    split_ifs with hf h1 h2 <;> first | rfl | (exact absurd h h1) | simp_all
  · intro h
    unfold handleAsrResult
    split_ifs with hf h1 h2 <;> first | rfl | (exact absurd h h2) | simp_all
  · intro h0 hlast
    rw [handleAsrResult_merge_eq s text h0 hlast]
    refine ⟨rfl, ?_, ?_⟩
    · intro hpre
      by_cases hnil : s.voiceFinal = []
      · have hcond : ¬(s.voiceFinal ≠ [] ∧ s.voiceFinal.isPrefixOf (jsTrim text)) := by
          intro hcontra
          exact hcontra.1 hnil
        simp only [if_neg hcond]
        rw [hnil, List.nil_append]
        exact jsTrim_space_cons (jsTrim text) (jsTrim_idem text)
      · have hcond : s.voiceFinal ≠ [] ∧ s.voiceFinal.isPrefixOf (jsTrim text) := ⟨hnil, hpre⟩
        simp only [if_pos hcond]
    · intro hpre
      have hnil : s.voiceFinal ≠ [] := by
        intro hcontra
        rw [hcontra] at hpre
        simp [List.isPrefixOf] at hpre
      have hcond : ¬(s.voiceFinal ≠ [] ∧ s.voiceFinal.isPrefixOf (jsTrim text)) := by
        intro hcontra
        rw [hpre] at hcontra
        exact Bool.false_ne_true hcontra.2
      simp only [if_neg hcond]
      exact jsTrim_append_space s.voiceFinal (jsTrim text) hprev (jsTrim_idem text) hnil h0

/-- Claim C3 witness: the spec concrete fragment sequences, starting from
the initial empty voice state (whose accumulated text is trimmed). -/
theorem transcript_final_merge_witness :
    (runFinals initialVoiceState ["hello".toList, "hello world".toList]).voiceFinal
      = "hello world".toList ∧
    (runFinals initialVoiceState ["hello".toList, "hello".toList]).voiceFinal
      = "hello".toList := by
  have h := transcript_final_merge initialVoiceState "hello".toList (by decide)
  exact ⟨h.2.2.2.1, h.2.2.2.2⟩
